import Mathlib

/-!
Shallow embedding of `src/scraper.py` (class `Scraper`), the crawl
coordination and dedup core of the repository.

Modelling conventions:
- Python unbounded `int` is `Int`; wall-clock instants (`time.time()`)
  are modelled as `Int` timestamps supplied explicitly.
- The Redis store is explicit state: the `urls_visited_count:{url}`
  counters are an association list (INCR on a missing key yields 1, as
  in Redis), and the `visited_urls:{href}` set entries are a list of
  hrefs (the source uses the href itself both in the key and as the
  member, so membership of `href` in its own keyed set is equivalent to
  membership in one global set of hrefs).
- External effects of one `scrape` call (the HTTP request, the S3
  upload, file creation/deletion, log lines, Kafka publishes) are
  recorded in an `Effects` structure; the outcomes of the external
  collaborators (fetch success and extracted hrefs, upload success,
  the clock value read at the time check) are inputs in `Env`.
-/

namespace Granulate

/-- Kafka message produced by `process_link`: the JSON payload
`{"url": ..., "depth": ...}` sent to `producer.send(topic, value)`. -/
structure KMsg where
  topic : String
  url : String
  depth : Int
deriving Repr, DecidableEq

/-- Configuration of `Scraper.__init__`: `max_depth = 2`, `max_urls = 5`,
`max_time_in_sec = 30`, `kafka_topic = "new_urls"`, and the crawl session
start `start_time = time.time()`. -/
structure Scraper where
  max_depth : Int
  max_urls : Int
  max_time_in_sec : Int
  kafka_topic : String
  start_time : Int
deriving Repr, DecidableEq

/-- State held in the external Redis store: the per-URL visit counters
(keys `urls_visited_count:{url}`) and the visited-link set entries
(keys `visited_urls:{href}`, member `href`). -/
structure RedisState where
  counters : List (String × Int)
  visited : List String
deriving Repr, DecidableEq

/-- Redis GET on a counter key, with 0 for a missing key (INCR semantics). -/
def getCounter (st : RedisState) (key : String) : Int :=
  match st.counters.lookup key with
  | some v => v
  | none => 0

/-- Redis INCR on a counter key. -/
def incrCounter (st : RedisState) (key : String) : RedisState :=
  { st with
    counters := (key, getCounter st key + 1) :: st.counters.filter (fun p => p.1 ≠ key) }

/-- Counter key built in `scrape`: `f"urls_visited_count:{url}"`. -/
def visitedKey (url : String) : String := "urls_visited_count:" ++ url

/-- Characters strictly before the first colon, paired with those after it,
when the character list holds a colon at all. -/
def splitColon : List Char → Option (List Char × List Char)
  | [] => none
  | c :: rest =>
    if c = ':' then some ([], rest)
    else
      match splitColon rest with
      | some r => some (c :: r.1, r.2)
      | none => none

/-- Characters `urllib.parse` allows inside a scheme name. -/
def isSchemeChar (c : Char) : Bool :=
  c.isAlpha || c.isDigit || c == '+' || c == '-' || c == '.'

/-- Scheme of a URL as `urllib.parse.urlparse` extracts it: the text before
the first colon when it is a well-formed scheme name (a letter followed by
letters, digits, `+`, `-` or `.`); empty string otherwise. -/
def schemeOf (u : String) : String :=
  match splitColon u.data with
  | some r =>
    match r.1 with
    | [] => ""
    | c :: cs => if c.isAlpha && (c :: cs).all isSchemeChar then ⟨c :: cs⟩ else ""
  | none => ""

/-- Netloc characters: after a leading `//`, up to the next `/`, `?` or `#`. -/
def netlocChars : List Char → List Char
  | '/' :: '/' :: rest =>
    rest.takeWhile (fun c => !(c == '/') && !(c == '?') && !(c == '#'))
  | _ => []

/-- Network location of a URL as `urllib.parse.urlparse` extracts it: the
text after a leading `//` (once the scheme is stripped) up to the next
`/`, `?` or `#`; empty when the URL has no `//` authority part. -/
def netlocOf (u : String) : String :=
  let rest := if schemeOf u = "" then u.data else u.data.drop ((schemeOf u).length + 1)
  ⟨netlocChars rest⟩

/-- Modelled after `urllib.parse.urljoin`, restricted to the shapes the
scraper produces: the base it is called with is always the bare authority
string `f"{scheme}://{netloc}"` (no path), so path merging degenerates to
prefixing; a relative reference with its own scheme is returned unchanged. -/
def urljoin (base rel : String) : String :=
  if schemeOf rel ≠ "" then rel
  else
    match rel.data with
    | '/' :: '/' :: _ => schemeOf base ++ ":" ++ rel
    | '/' :: _ => schemeOf base ++ "://" ++ netlocOf base ++ rel
    | _ => schemeOf base ++ "://" ++ netlocOf base ++ "/" ++ rel

/-- URL that `process_link` publishes for a given href: the href itself when
it parses with a scheme, otherwise the href joined against the base built
from the Kafka topic name parsed as a URL
(`urljoin(f"{base_url.scheme}://{base_url.netloc}", href)` with
`base_url = urlparse(self.kafka_topic)`). -/
def resolveHref (s : Scraper) (href : String) : String :=
  if schemeOf href = "" then
    urljoin (schemeOf s.kafka_topic ++ "://" ++ netlocOf s.kafka_topic) href
  else href

/-- Embedding of `Scraper.process_link(href, depth)`: falsy href returns at
once; otherwise `sismember` on the visited set decides, and on first sight
the href is `sadd`-ed and one message is published to the Kafka topic.
The page URL being crawled is not a parameter: the source method does not
receive it, so relative resolution can only use `self.kafka_topic`. -/
def process_link (s : Scraper) (st : RedisState) (href : String) (depth : Int) :
    RedisState × List KMsg :=
  if href = "" then (st, [])
  else if st.visited.contains href then (st, [])
  else
    ({ st with visited := href :: st.visited },
     [{ topic := s.kafka_topic, url := resolveHref s href, depth := depth }])

/-- Loop `for link in soup.find_all("a"): self.process_link(link.get('href'), depth + 1)`
over the extracted hrefs, threading the Redis state and collecting the
published messages in order. -/
def processLinks (s : Scraper) (st : RedisState) : List String → Int → RedisState × List KMsg
  | [], _ => (st, [])
  | h :: t, d =>
    let r1 := process_link s st h d
    let r2 := processLinks s r1.1 t d
    (r2.1, r1.2 ++ r2.2)

/-- Reason a `scrape` call stopped before reaching link processing,
matching the distinct log lines of the source. -/
inductive StopReason
  | depthExceeded
  | fetchError
  | countReached
  | timeReached
deriving Repr, DecidableEq

/-- Observable effects of one `scrape` call. -/
structure Effects where
  httpRequested : Bool := false
  fetchErrorLogged : Bool := false
  fileCreated : Bool := false
  uploadErrorLogged : Bool := false
  fileDeleted : Bool := false
  counterIncremented : Bool := false
  published : List KMsg := []
  stopReason : Option StopReason := none
deriving Repr, DecidableEq

/-- Outcomes of the external collaborators during one `scrape` call:
`fetchResult = none` models `requests.get`/`raise_for_status` raising,
`some hrefs` a 2xx response whose parsed document yields those hrefs
(a `None` or empty `href` attribute is modelled as `""`); `uploadOk`
is the S3 upload outcome; `now` is the value `time.time()` returns at
the time-limit check. -/
structure Env where
  fetchResult : Option (List String)
  uploadOk : Bool
  now : Int
deriving Repr, DecidableEq

/-- Effects of the branch that returns at the depth guard. -/
def effDepthExceeded : Effects := { stopReason := some .depthExceeded }

/-- Effects of the branch where the HTTP request raised: the error is
logged and the method returns. -/
def effFetchError : Effects :=
  { httpRequested := true, fetchErrorLogged := true, stopReason := some .fetchError }

/-- Effects common to every path past a successful fetch: the page was
requested, the temp file created and deleted, the upload attempted (an
upload failure only adds a log line), and the visit counter incremented. -/
def effFetched (uploadOk : Bool) : Effects :=
  { httpRequested := true, fileCreated := true, uploadErrorLogged := !uploadOk,
    fileDeleted := true, counterIncremented := true }

/-- Embedding of `Scraper.scrape(url, depth)`. Control flow of the source,
in order: the depth guard (`depth > max_depth` returns before the
request); the HTTP fetch (an exception logs and returns); file creation,
the guarded S3 upload, file deletion; `INCR` then `GET` of
`urls_visited_count:{url}`; the visit-count guard
(`urls_visited_count >= max_urls` returns); the time guard
(`max_time_in_sec and time.time() - start_time >= max_time_in_sec`
returns); finally `process_link` over every extracted href at
`depth + 1`. -/
def scrape (s : Scraper) (st : RedisState) (env : Env) (url : String) (depth : Int) :
    RedisState × Effects :=
  if depth > s.max_depth then (st, effDepthExceeded)
  else
    match env.fetchResult with
    | none => (st, effFetchError)
    | some hrefs =>
      if getCounter (incrCounter st (visitedKey url)) (visitedKey url) ≥ s.max_urls then
        (incrCounter st (visitedKey url),
         { effFetched env.uploadOk with stopReason := some .countReached })
      else if s.max_time_in_sec ≠ 0 ∧ env.now - s.start_time ≥ s.max_time_in_sec then
        (incrCounter st (visitedKey url),
         { effFetched env.uploadOk with stopReason := some .timeReached })
      else
        ((processLinks s (incrCounter st (visitedKey url)) hrefs (depth + 1)).1,
         { effFetched env.uploadOk with
             published := (processLinks s (incrCounter st (visitedKey url)) hrefs (depth + 1)).2 })

/-- Repeated submission of the same href to `process_link`, one call per
entry of `depths`, threading the Redis state and concatenating the
published messages. -/
def submitMany (s : Scraper) (href : String) : RedisState → List Int → RedisState × List KMsg
  | st, [] => (st, [])
  | st, d :: ds =>
    let r1 := process_link s st href d
    let r2 := submitMany s href r1.1 ds
    (r2.1, r1.2 ++ r2.2)

/-- Result of `Scraper.empty_kafka_queue`: how many pending messages had
their offset committed, and which messages were handed to `scrape`. -/
structure DrainResult where
  committedOffsets : Nat
  scraped : List KMsg
deriving Repr, DecidableEq

/-- Embedding of `Scraper.empty_kafka_queue`: the drain loop
`for message in consumer: consumer.commit()` commits the offset of every
pending message and never invokes `scrape` on any of them. -/
def empty_kafka_queue (pending : List KMsg) : DrainResult :=
  pending.foldl
    (fun acc _ => { committedOffsets := acc.committedOffsets + 1, scraped := acc.scraped })
    { committedOffsets := 0, scraped := [] }

/-- Backlog a fresh consumer loop in the same consumer group sees: the
messages of the topic past the committed offset. -/
def freshWorkerBacklog (queue : List KMsg) (committed : Nat) : List KMsg :=
  queue.drop committed

/-- Local state of one thread running the store round-trips of
`process_link` for a fixed nonempty href: `pc = 0` before the `sismember`
call, `pc = 1` between `sismember` (whose result is `saw`) and the
conditional `sadd` + publish, `pc = 2` done. -/
structure ThreadSt where
  pc : Nat
  saw : Bool
deriving Repr, DecidableEq

/-- Shared-plus-local state of two concurrent `process_link` calls for the
same href: the store set, the number of messages published so far, and the
two thread states. -/
structure ConcSt where
  store : List String
  publishedCount : Nat
  t1 : ThreadSt
  t2 : ThreadSt
deriving Repr, DecidableEq

/-- One atomic store round-trip of a thread: at `pc = 0` it runs
`sismember` and records the answer; at `pc = 1` it runs the conditional
`if not member: sadd(...); producer.send(...)` based on the answer it
recorded earlier. Each step is atomic at the store boundary; the gap
between the two steps is the suspension point of the source, which issues
`sismember` and `sadd` as two separate store calls. -/
def threadStep (href : String) (store : List String) (pub : Nat) (t : ThreadSt) :
    List String × Nat × ThreadSt :=
  match t.pc with
  | 0 => (store, pub, { pc := 1, saw := store.contains href })
  | 1 =>
    if t.saw then (store, pub, { t with pc := 2 })
    else (href :: store, pub + 1, { t with pc := 2 })
  | _ => (store, pub, t)

/-- Run a schedule (a list of thread choices, `true` = first thread) over
the two-thread `process_link` interleaving model. -/
def runSched (href : String) : List Bool → ConcSt → ConcSt
  | [], st => st
  | tid :: rest, st =>
    if tid then
      let r := threadStep href st.store st.publishedCount st.t1
      runSched href rest { store := r.1, publishedCount := r.2.1, t1 := r.2.2, t2 := st.t2 }
    else
      let r := threadStep href st.store st.publishedCount st.t2
      runSched href rest { store := r.1, publishedCount := r.2.1, t1 := st.t1, t2 := r.2.2 }

/-- Initial state of the two-thread model: empty store, nothing published,
both threads about to run `sismember`. -/
def concInit : ConcSt :=
  { store := [], publishedCount := 0, t1 := { pc := 0, saw := false }, t2 := { pc := 0, saw := false } }

/-! Concrete fixtures used by witnesses and counterexamples. `s0` is the
configuration `Scraper.__init__` installs; the others vary one limit. -/

/-- Scraper configuration exactly as `Scraper.__init__` sets it. -/
def s0 : Scraper :=
  { max_depth := 2, max_urls := 5, max_time_in_sec := 30, kafka_topic := "new_urls", start_time := 0 }

/-- Like `s0` but with `max_urls = 1`, to exercise the count limit quickly. -/
def s1 : Scraper := { s0 with max_urls := 1 }

/-- Empty Redis store: no counters, no visited links. -/
def st0 : RedisState := { counters := [], visited := [] }

/-- Successful fetch yielding one link, upload ok, clock well inside the limit. -/
def envOk : Env := { fetchResult := some ["a.html"], uploadOk := true, now := 10 }

/-- Fetch raises (network error or non-2xx status). -/
def envErr : Env := { fetchResult := none, uploadOk := true, now := 10 }

/-- Successful fetch but the clock is far past the 30-second limit. -/
def envLate : Env := { fetchResult := some ["a.html"], uploadOk := true, now := 100 }

/-- Successful fetch of a page with no links. -/
def envNoLinks : Env := { fetchResult := some [], uploadOk := true, now := 10 }

/-- Store in which the counter for url `"u"` already equals the shipped
`max_urls = 5`. -/
def stFull : RedisState := { counters := [(visitedKey "u", 5)], visited := [] }

/-! Helper lemmas about the store and `process_link`, shared by the claim
theorems below. -/

/-- Redis INCR then GET returns the old value plus one. -/
theorem getCounter_incr (st : RedisState) (k : String) :
    getCounter (incrCounter st k) k = getCounter st k + 1 := by
  simp [getCounter, incrCounter, List.lookup]

/-- List membership check succeeds on the element just added. -/
theorem contains_cons_self (a : String) (l : List String) : (a :: l).contains a = true := by
  simp [List.contains]

/-- Falsy href: `process_link` returns at once with no publish. -/
theorem process_link_falsy (s : Scraper) (st : RedisState) (d : Int) :
    process_link s st "" d = (st, []) := by
  simp [process_link]

/-- Href already in the visited set: `process_link` publishes nothing and
leaves the store unchanged. -/
theorem process_link_member (s : Scraper) (st : RedisState) (href : String) (d : Int)
    (h : st.visited.contains href = true) :
    process_link s st href d = (st, []) := by
  by_cases h0 : href = ""
  · subst h0; simp [process_link]
  · unfold process_link
    rw [if_neg h0, if_pos h]

/-- Fresh nonempty href: `process_link` adds it to the visited set and
publishes exactly one message carrying the resolved URL. -/
theorem process_link_fresh (s : Scraper) (st : RedisState) (href : String) (d : Int)
    (h0 : href ≠ "") (h1 : st.visited.contains href = false) :
    process_link s st href d =
      ({ st with visited := href :: st.visited },
       [{ topic := s.kafka_topic, url := resolveHref s href, depth := d }]) := by
  unfold process_link
  rw [if_neg h0, if_neg (by simp only [h1]; decide)]

/-- Submitting an already-visited href any number of times is a no-op. -/
theorem submitMany_member (s : Scraper) (href : String) (st : RedisState) (ds : List Int)
    (h : st.visited.contains href = true) :
    submitMany s href st ds = (st, []) := by
  induction ds with
  | nil => rfl
  | cons d ds ih => simp [submitMany, process_link_member s st href d h, ih]

/-- Submitting the falsy href any number of times is a no-op. -/
theorem submitMany_falsy (s : Scraper) (st : RedisState) (ds : List Int) :
    submitMany s "" st ds = (st, []) := by
  induction ds with
  | nil => rfl
  | cons d ds ih => simp [submitMany, process_link_falsy, ih]

/-- Submitting a fresh nonempty href one or more times publishes exactly
one message, from the first call; the remaining calls are no-ops. -/
theorem submitMany_fresh (s : Scraper) (st : RedisState) (href : String) (d : Int) (ds : List Int)
    (h0 : href ≠ "") (h1 : st.visited.contains href = false) :
    submitMany s href st (d :: ds) =
      ({ st with visited := href :: st.visited },
       [{ topic := s.kafka_topic, url := resolveHref s href, depth := d }]) := by
  have hmem : ({ st with visited := href :: st.visited } : RedisState).visited.contains href = true :=
    contains_cons_self href st.visited
  simp [submitMany, process_link_fresh s st href d h0 h1,
    submitMany_member s href _ ds hmem]

/-! Branch equations for `scrape`, one per exit path of the source. -/

/-- Branch equation: the depth guard fires. -/
theorem scrape_eq_depth (s : Scraper) (st : RedisState) (env : Env) (url : String)
    (depth : Int) (hd : depth > s.max_depth) :
    scrape s st env url depth = (st, effDepthExceeded) := by
  unfold scrape; rw [if_pos hd]

/-- Branch equation: depth admitted, fetch raises. -/
theorem scrape_eq_fetch_error (s : Scraper) (st : RedisState) (env : Env) (url : String)
    (depth : Int) (hd : ¬ depth > s.max_depth) (hf : env.fetchResult = none) :
    scrape s st env url depth = (st, effFetchError) := by
  unfold scrape; rw [if_neg hd, hf]

/-- Branch equation: fetch succeeded and the incremented counter has hit
`max_urls`, so the call stops after attributing the visit. -/
theorem scrape_eq_count (s : Scraper) (st : RedisState) (env : Env) (url : String)
    (depth : Int) (hrefs : List String)
    (hd : ¬ depth > s.max_depth) (hf : env.fetchResult = some hrefs)
    (hc : getCounter (incrCounter st (visitedKey url)) (visitedKey url) ≥ s.max_urls) :
    scrape s st env url depth =
      (incrCounter st (visitedKey url),
       { effFetched env.uploadOk with stopReason := some .countReached }) := by
  unfold scrape
  rw [if_neg hd, hf]
  exact if_pos hc

/-- Branch equation: fetch succeeded, the counter is under the limit, and
the wall-clock deadline has passed, so the call stops after attributing
the visit. -/
theorem scrape_eq_time (s : Scraper) (st : RedisState) (env : Env) (url : String)
    (depth : Int) (hrefs : List String)
    (hd : ¬ depth > s.max_depth) (hf : env.fetchResult = some hrefs)
    (hc : ¬ getCounter (incrCounter st (visitedKey url)) (visitedKey url) ≥ s.max_urls)
    (ht : s.max_time_in_sec ≠ 0 ∧ env.now - s.start_time ≥ s.max_time_in_sec) :
    scrape s st env url depth =
      (incrCounter st (visitedKey url),
       { effFetched env.uploadOk with stopReason := some .timeReached }) := by
  unfold scrape
  rw [if_neg hd, hf]
  exact (if_neg hc).trans (if_pos ht)

/-- Branch equation: every guard passes and the extracted links are
processed at `depth + 1`. -/
theorem scrape_eq_links (s : Scraper) (st : RedisState) (env : Env) (url : String)
    (depth : Int) (hrefs : List String)
    (hd : ¬ depth > s.max_depth) (hf : env.fetchResult = some hrefs)
    (hc : ¬ getCounter (incrCounter st (visitedKey url)) (visitedKey url) ≥ s.max_urls)
    (ht : ¬ (s.max_time_in_sec ≠ 0 ∧ env.now - s.start_time ≥ s.max_time_in_sec)) :
    scrape s st env url depth =
      ((processLinks s (incrCounter st (visitedKey url)) hrefs (depth + 1)).1,
       { effFetched env.uploadOk with
           published := (processLinks s (incrCounter st (visitedKey url)) hrefs (depth + 1)).2 }) := by
  unfold scrape
  rw [if_neg hd, hf]
  exact (if_neg hc).trans (if_neg ht)

/-- C1: a task whose depth is strictly greater than `max_depth` is rejected
by `scrape` before the HTTP request: the store is unchanged, no request is
made, no counter is incremented and no link is enqueued. -/
theorem scrape_rejects_deep_tasks (s : Scraper) (st : RedisState) (env : Env)
    (url : String) (depth : Int) (h : depth > s.max_depth) :
    scrape s st env url depth = (st, effDepthExceeded)
    ∧ (scrape s st env url depth).2.httpRequested = false
    ∧ (scrape s st env url depth).2.counterIncremented = false
    ∧ (scrape s st env url depth).2.published = [] := by
  have he : scrape s st env url depth = (st, effDepthExceeded) := by
    unfold scrape; rw [if_pos h]
  exact ⟨he, by rw [he]; rfl, by rw [he]; rfl, by rw [he]; rfl⟩

/-- Witness for C1 at depth 3 with the shipped configuration (`max_depth = 2`). -/
theorem scrape_rejects_deep_tasks_witness :
    (3 : Int) > s0.max_depth
    ∧ (scrape s0 st0 envOk "u" 3 = (st0, effDepthExceeded)
       ∧ (scrape s0 st0 envOk "u" 3).2.httpRequested = false
       ∧ (scrape s0 st0 envOk "u" 3).2.counterIncremented = false
       ∧ (scrape s0 st0 envOk "u" 3).2.published = []) :=
  ⟨by decide, scrape_rejects_deep_tasks s0 st0 envOk "u" 3 (by decide)⟩

/-- C6: when the fetch raises (transport error or non-2xx via
`raise_for_status`), `scrape` logs the error and returns: the store is
unchanged, the visited counter is not incremented and no link is
extracted or enqueued. -/
theorem scrape_fetch_failure_drops_task (s : Scraper) (st : RedisState) (env : Env)
    (url : String) (depth : Int) (hd : ¬ depth > s.max_depth)
    (hf : env.fetchResult = none) :
    scrape s st env url depth = (st, effFetchError)
    ∧ (scrape s st env url depth).2.fetchErrorLogged = true
    ∧ (scrape s st env url depth).2.counterIncremented = false
    ∧ (scrape s st env url depth).2.published = [] := by
  have he : scrape s st env url depth = (st, effFetchError) := by
    unfold scrape; rw [if_neg hd, hf]
  exact ⟨he, by rw [he]; rfl, by rw [he]; rfl, by rw [he]; rfl⟩

/-- Witness for C6 at depth 0 with a failing fetch. -/
theorem scrape_fetch_failure_drops_task_witness :
    (¬ (0 : Int) > s0.max_depth) ∧ envErr.fetchResult = none
    ∧ (scrape s0 st0 envErr "u" 0 = (st0, effFetchError)
       ∧ (scrape s0 st0 envErr "u" 0).2.fetchErrorLogged = true
       ∧ (scrape s0 st0 envErr "u" 0).2.counterIncremented = false
       ∧ (scrape s0 st0 envErr "u" 0).2.published = []) :=
  ⟨by decide, rfl, scrape_fetch_failure_drops_task s0 st0 envErr "u" 0 (by decide) rfl⟩

/-- C4: submitting the same link to `process_link` any number of times,
with any depths, publishes at most one message; if the link is already in
the visited set every call is a no-op on store and queue; if the link is
nonempty and not yet in the set, the submissions publish exactly one
message (from the first call). -/
theorem process_link_enqueues_at_most_once (s : Scraper) (st : RedisState) (href : String)
    (depths : List Int) :
    (submitMany s href st depths).2.length ≤ 1
    ∧ (st.visited.contains href = true → submitMany s href st depths = (st, []))
    ∧ (href ≠ "" → st.visited.contains href = false → depths ≠ [] →
        (submitMany s href st depths).2.length = 1) := by
  refine ⟨?_, fun h => submitMany_member s href st depths h, fun h0 h1 hne => ?_⟩
  · by_cases h0 : href = ""
    · subst h0; simp [submitMany_falsy]
    · cases h1 : st.visited.contains href with
      | true => simp [submitMany_member s href st depths h1]
      | false =>
        cases depths with
        | nil => simp [submitMany]
        | cons d ds => rw [submitMany_fresh s st href d ds h0 h1]; simp
  · cases depths with
    | nil => exact absurd rfl hne
    | cons d ds => rw [submitMany_fresh s st href d ds h0 h1]; rfl

/-- Witness for C4: three submissions of a fresh link publish exactly one
message. -/
theorem process_link_enqueues_at_most_once_witness :
    ("a.html" ≠ "") ∧ st0.visited.contains "a.html" = false
    ∧ ([1, 1, 2] : List Int) ≠ []
    ∧ (submitMany s0 "a.html" st0 [1, 1, 2]).2.length = 1 :=
  ⟨by decide, by decide, by decide,
   (process_link_enqueues_at_most_once s0 st0 "a.html" [1, 1, 2]).2.2
     (by decide) (by decide) (by decide)⟩

/-- C7: a first-seen link that parses without a scheme is resolved against
the base built from the Kafka topic name parsed as a URL (its scheme and
netloc), and the resolved URL is what gets published. The page being
crawled plays no part: `process_link` does not even receive it. -/
theorem process_link_resolves_against_topic (s : Scraper) (st : RedisState) (href : String)
    (d : Int) (h0 : href ≠ "") (h1 : st.visited.contains href = false)
    (h2 : schemeOf href = "") :
    (process_link s st href d).2 =
      [{ topic := s.kafka_topic,
         url := urljoin (schemeOf s.kafka_topic ++ "://" ++ netlocOf s.kafka_topic) href,
         depth := d }] := by
  rw [process_link_fresh s st href d h0 h1]
  simp [resolveHref, h2]

/-- Witness for C7: with the shipped topic `"new_urls"` the relative link
`"a.html"` is published joined against `"://"` (the topic has neither
scheme nor netloc), not against any page URL. -/
theorem process_link_resolves_against_topic_witness :
    ("a.html" ≠ "") ∧ st0.visited.contains "a.html" = false
    ∧ schemeOf "a.html" = ""
    ∧ (process_link s0 st0 "a.html" 1).2 =
        [{ topic := s0.kafka_topic,
           url := urljoin (schemeOf s0.kafka_topic ++ "://" ++ netlocOf s0.kafka_topic) "a.html",
           depth := 1 }]
    ∧ urljoin (schemeOf s0.kafka_topic ++ "://" ++ netlocOf s0.kafka_topic) "a.html"
        = ":///a.html" :=
  ⟨by decide, by decide, by decide,
   process_link_resolves_against_topic s0 st0 "a.html" 1 (by decide) (by decide) (by decide),
   by decide⟩

/-- C2 counterexample: with the shipped configuration and the wall clock
already 100 seconds past `start_time` (limit 30), `scrape` on a fresh task
still performs the HTTP request — the time guard sits after the fetch, so
the claim that no HTTP request happens after the deadline is false. -/
theorem scrape_fetches_after_deadline :
    envLate.now - s0.start_time ≥ s0.max_time_in_sec
    ∧ (scrape s0 st0 envLate "u" 0).2.httpRequested = true := by decide

/-- C2 amended: once the deadline has passed, a `scrape` call enqueues no
links on any path, so link discovery stops; the call's own HTTP request is
not prevented. -/
theorem scrape_no_links_after_deadline (s : Scraper) (st : RedisState) (env : Env)
    (url : String) (depth : Int) (h0 : s.max_time_in_sec ≠ 0)
    (h1 : env.now - s.start_time ≥ s.max_time_in_sec) :
    (scrape s st env url depth).2.published = [] := by
  by_cases hd : depth > s.max_depth
  · rw [scrape_eq_depth s st env url depth hd]; rfl
  · cases hf : env.fetchResult with
    | none => rw [scrape_eq_fetch_error s st env url depth hd hf]; rfl
    | some hrefs =>
      by_cases hc : getCounter (incrCounter st (visitedKey url)) (visitedKey url) ≥ s.max_urls
      · rw [scrape_eq_count s st env url depth hrefs hd hf hc]; rfl
      · rw [scrape_eq_time s st env url depth hrefs hd hf hc ⟨h0, h1⟩]; rfl

/-- Witness for the amended C2 at the concrete late clock. -/
theorem scrape_no_links_after_deadline_witness :
    s0.max_time_in_sec ≠ 0 ∧ envLate.now - s0.start_time ≥ s0.max_time_in_sec
    ∧ (scrape s0 st0 envLate "u" 0).2.published = [] :=
  ⟨by decide, by decide,
   scrape_no_links_after_deadline s0 st0 envLate "u" 0 (by decide) (by decide)⟩

/-- C3 counterexample: with `max_urls = 1`, after one `scrape` the counter
for url `"u"` already equals the limit, yet a second `scrape` call for the
same url still performs the HTTP request and still increments the counter
to 2 — the count guard sits after the fetch and the increment, so once the
limit is reached further fetches are neither prevented nor unattributed. -/
theorem scrape_fetches_past_count_limit :
    getCounter (scrape s1 st0 envNoLinks "u" 0).1 (visitedKey "u") = 1
    ∧ ((1 : Int) ≥ s1.max_urls)
    ∧ (scrape s1 (scrape s1 st0 envNoLinks "u" 0).1 envNoLinks "u" 0).2.httpRequested = true
    ∧ (scrape s1 (scrape s1 st0 envNoLinks "u" 0).1 envNoLinks "u" 0).2.counterIncremented = true
    ∧ getCounter (scrape s1 (scrape s1 st0 envNoLinks "u" 0).1 envNoLinks "u" 0).1
        (visitedKey "u") = 2 := by decide

/-- C3 amended: the counter is keyed by the fetched URL (not the seed), and
once it has reached `max_urls` a further `scrape` call for that URL
enqueues no links; the fetch itself still happens and is still attributed
(counter incremented, stop reason the count limit). -/
theorem scrape_no_links_once_count_reached (s : Scraper) (st : RedisState) (env : Env)
    (url : String) (depth : Int)
    (h : getCounter st (visitedKey url) ≥ s.max_urls) :
    (scrape s st env url depth).2.published = []
    ∧ (∀ hrefs, ¬ depth > s.max_depth → env.fetchResult = some hrefs →
        (scrape s st env url depth).2.httpRequested = true
        ∧ (scrape s st env url depth).2.counterIncremented = true
        ∧ (scrape s st env url depth).2.stopReason = some StopReason.countReached) := by
  have hc : getCounter (incrCounter st (visitedKey url)) (visitedKey url) ≥ s.max_urls := by
    rw [getCounter_incr]; omega
  constructor
  · by_cases hd : depth > s.max_depth
    · rw [scrape_eq_depth s st env url depth hd]; rfl
    · cases hf : env.fetchResult with
      | none => rw [scrape_eq_fetch_error s st env url depth hd hf]; rfl
      | some hrefs => rw [scrape_eq_count s st env url depth hrefs hd hf hc]; rfl
  · intro hrefs hd hf
    rw [scrape_eq_count s st env url depth hrefs hd hf hc]
    exact ⟨rfl, rfl, rfl⟩

/-- Witness for the amended C3: counter for `"u"` already at 5 = `max_urls`. -/
theorem scrape_no_links_once_count_reached_witness :
    getCounter stFull (visitedKey "u") ≥ s0.max_urls
    ∧ (scrape s0 stFull envOk "u" 0).2.published = [] :=
  ⟨by decide, (scrape_no_links_once_count_reached s0 stFull envOk "u" 0 (by decide)).1⟩

/-- C5 counterexample: with `max_urls = 1` and the clock 100 seconds past
the 30-second limit, `scrape` on a fresh store still performs the HTTP
request (so neither the time nor the count guard runs before the fetch),
stops with the count reason rather than the time reason (so the count
guard runs before the time guard, not after), and does so although the
counter was 0, strictly below the limit, before the call — the comparison
saw the already-incremented value. -/
theorem scrape_counts_before_time_and_after_fetch :
    envLate.now - s1.start_time ≥ s1.max_time_in_sec
    ∧ getCounter st0 (visitedKey "u") = 0
    ∧ ((0 : Int) < s1.max_urls)
    ∧ (scrape s1 st0 envLate "u" 0).2.httpRequested = true
    ∧ (scrape s1 st0 envLate "u" 0).2.stopReason = some StopReason.countReached
    ∧ (scrape s1 st0 envLate "u" 0).2.counterIncremented = true := by decide

/-- C5 amended: only the depth guard precedes the fetch. After a successful
fetch the counter for the fetched URL is incremented and the incremented
value is compared against `max_urls`; the time guard runs only after the
count guard passes; links are processed only when both pass. -/
theorem scrape_guard_order (s : Scraper) (st : RedisState) (env : Env) (url : String)
    (depth : Int) (hrefs : List String)
    (hd : ¬ depth > s.max_depth) (hf : env.fetchResult = some hrefs) :
    (scrape s st env url depth).2.httpRequested = true
    ∧ (scrape s st env url depth).2.counterIncremented = true
    ∧ (getCounter st (visitedKey url) + 1 ≥ s.max_urls →
        (scrape s st env url depth).2.stopReason = some StopReason.countReached
        ∧ (scrape s st env url depth).2.published = [])
    ∧ (getCounter st (visitedKey url) + 1 < s.max_urls →
        s.max_time_in_sec ≠ 0 → env.now - s.start_time ≥ s.max_time_in_sec →
        (scrape s st env url depth).2.stopReason = some StopReason.timeReached
        ∧ (scrape s st env url depth).2.published = [])
    ∧ (getCounter st (visitedKey url) + 1 < s.max_urls →
        ¬ (s.max_time_in_sec ≠ 0 ∧ env.now - s.start_time ≥ s.max_time_in_sec) →
        (scrape s st env url depth).2.stopReason = none
        ∧ (scrape s st env url depth).2.published =
            (processLinks s (incrCounter st (visitedKey url)) hrefs (depth + 1)).2) := by
  have hg := getCounter_incr st (visitedKey url)
  by_cases hcnt : getCounter st (visitedKey url) + 1 ≥ s.max_urls
  · have hc : getCounter (incrCounter st (visitedKey url)) (visitedKey url) ≥ s.max_urls := by
      rw [hg]; exact hcnt
    rw [scrape_eq_count s st env url depth hrefs hd hf hc]
    exact ⟨rfl, rfl, fun _ => ⟨rfl, rfl⟩,
      fun hlt _ _ => absurd hcnt (not_le.mpr hlt),
      fun hlt _ => absurd hcnt (not_le.mpr hlt)⟩
  · have hc : ¬ getCounter (incrCounter st (visitedKey url)) (visitedKey url) ≥ s.max_urls := by
      rw [hg]; exact hcnt
    by_cases ht : s.max_time_in_sec ≠ 0 ∧ env.now - s.start_time ≥ s.max_time_in_sec
    · rw [scrape_eq_time s st env url depth hrefs hd hf hc ht]
      exact ⟨rfl, rfl, fun hge => absurd hge hcnt,
        fun _ _ _ => ⟨rfl, rfl⟩, fun _ hnt => absurd ht hnt⟩
    · rw [scrape_eq_links s st env url depth hrefs hd hf hc ht]
      exact ⟨rfl, rfl, fun hge => absurd hge hcnt,
        fun _ h0 h1 => absurd ⟨h0, h1⟩ ht, fun _ _ => ⟨rfl, rfl⟩⟩

/-- Witness for the amended C5 on a fresh store inside all limits. -/
theorem scrape_guard_order_witness :
    (¬ (0 : Int) > s0.max_depth) ∧ envOk.fetchResult = some ["a.html"]
    ∧ (scrape s0 st0 envOk "u" 0).2.httpRequested = true :=
  ⟨by decide, rfl, (scrape_guard_order s0 st0 envOk "u" 0 ["a.html"] (by decide) rfl).1⟩

/-- Folding the drain step counts commits and never touches the scraped list. -/
theorem empty_kafka_queue_foldl_eq (pending : List KMsg) (acc : DrainResult) :
    pending.foldl
        (fun a _ => { committedOffsets := a.committedOffsets + 1, scraped := a.scraped })
        acc
      = { committedOffsets := acc.committedOffsets + pending.length, scraped := acc.scraped } := by
  induction pending generalizing acc with
  | nil => simp
  | cons m t ih =>
    simp only [List.foldl_cons, ih, List.length_cons]
    congr 1
    omega

/-- C8: the drain procedure commits the offset of every message pending at
shutdown and hands none of them to `scrape`; a fresh worker loop of the
same consumer group, starting after the committed offsets, therefore sees
none of the drained messages. -/
theorem empty_kafka_queue_discards_pending (pending : List KMsg) :
    (empty_kafka_queue pending).scraped = []
    ∧ (empty_kafka_queue pending).committedOffsets = pending.length
    ∧ freshWorkerBacklog pending (empty_kafka_queue pending).committedOffsets = [] := by
  have he : empty_kafka_queue pending
      = { committedOffsets := pending.length, scraped := [] } := by
    unfold empty_kafka_queue
    rw [empty_kafka_queue_foldl_eq]
    simp
  rw [he]
  exact ⟨rfl, rfl, by simp [freshWorkerBacklog]⟩

/-- C9: the source checks membership with `sismember` and inserts with a
separate `sadd`, instead of deciding on the return value of one atomic
insert. Interleaving the two store round-trips of two concurrent
`process_link` calls for the same fresh link as check, check, insert and
publish, insert and publish makes both calls run to completion and publish
— two messages for one link — while the serial schedule publishes one. -/
theorem concurrent_discoveries_both_publish :
    (runSched "a.html" [true, false, true, false] concInit).publishedCount = 2
    ∧ (runSched "a.html" [true, false, true, false] concInit).t1.pc = 2
    ∧ (runSched "a.html" [true, false, true, false] concInit).t2.pc = 2
    ∧ (runSched "a.html" [true, true, false, false] concInit).publishedCount = 1 := by decide

/-- C10: after a successful fetch, a failing S3 upload changes nothing but
the error log line: the store ends identical, the same messages are
published, the temp file is still deleted and the visit is still counted. -/
theorem upload_failure_does_not_abort (s : Scraper) (st : RedisState) (url : String)
    (depth : Int) (links : List String) (now : Int)
    (hd : ¬ depth > s.max_depth) :
    scrape s st { fetchResult := some links, uploadOk := false, now := now } url depth
      = ((scrape s st { fetchResult := some links, uploadOk := true, now := now } url depth).1,
         { (scrape s st { fetchResult := some links, uploadOk := true, now := now } url depth).2 with
             uploadErrorLogged := true })
    ∧ (scrape s st { fetchResult := some links, uploadOk := false, now := now } url
        depth).2.fileDeleted = true
    ∧ (scrape s st { fetchResult := some links, uploadOk := false, now := now } url
        depth).2.counterIncremented = true := by
  by_cases hc : getCounter (incrCounter st (visitedKey url)) (visitedKey url) ≥ s.max_urls
  · rw [scrape_eq_count s st _ url depth links hd rfl hc,
      scrape_eq_count s st _ url depth links hd rfl hc]
    exact ⟨rfl, rfl, rfl⟩
  · by_cases ht : s.max_time_in_sec ≠ 0 ∧ now - s.start_time ≥ s.max_time_in_sec
    · rw [scrape_eq_time s st _ url depth links hd rfl hc ht,
        scrape_eq_time s st _ url depth links hd rfl hc ht]
      exact ⟨rfl, rfl, rfl⟩
    · rw [scrape_eq_links s st _ url depth links hd rfl hc ht,
        scrape_eq_links s st _ url depth links hd rfl hc ht]
      exact ⟨rfl, rfl, rfl⟩

/-- Witness for C10 at a concrete successful fetch with one link. -/
theorem upload_failure_does_not_abort_witness :
    (¬ (0 : Int) > s0.max_depth)
    ∧ (scrape s0 st0 { fetchResult := some ["a.html"], uploadOk := false, now := 10 } "u" 0
        = ((scrape s0 st0 { fetchResult := some ["a.html"], uploadOk := true, now := 10 } "u" 0).1,
           { (scrape s0 st0 { fetchResult := some ["a.html"], uploadOk := true, now := 10 }
               "u" 0).2 with uploadErrorLogged := true })
       ∧ (scrape s0 st0 { fetchResult := some ["a.html"], uploadOk := false, now := 10 } "u"
           0).2.fileDeleted = true
       ∧ (scrape s0 st0 { fetchResult := some ["a.html"], uploadOk := false, now := 10 } "u"
           0).2.counterIncremented = true) :=
  ⟨by decide, upload_failure_does_not_abort s0 st0 "u" 0 ["a.html"] 10 (by decide)⟩

end Granulate
